import Mathlib

/-!
Verification of the OpenSCAD MCP server (`src/main.py`).

The Python source is shallowly embedded below: the scratchpad state is a
structure, every tool function becomes a pure Lean function, and the
nondeterministic pieces of an invocation (the temp-file path handed out by
`tempfile`, the outcome of `subprocess.run`, the bytes the external
compiler wrote) are passed in explicitly as an environment.  File-system
effects are made explicit: each pipeline threads a list of existing paths
and reports the spawned commands together with their timeouts.
-/

/- ## Python string primitives used by the source -/

/-- The whitespace characters stripped by Python `str.strip()`
(ASCII subset, which covers every character the server ever compares). -/
def isPySpace (c : Char) : Bool :=
  c == ' ' || c == '\t' || c == '\n' || c == '\r' || c == '\x0b' || c == '\x0c'

/-- Python `s.strip()` on a list of characters: drop leading and trailing
whitespace. -/
def pyStripL (l : List Char) : List Char :=
  ((l.dropWhile isPySpace).reverse.dropWhile isPySpace).reverse

/-- Python `s.strip()`. -/
def pyStrip (s : String) : String :=
  ⟨pyStripL s.data⟩

/-- Python `len(s.split(sep))` for the one-character separator `sep`:
the number of fragments is the number of separator occurrences plus one. -/
def pySplitLen (s : String) (sep : Char) : Nat :=
  s.data.count sep + 1

/-- Python `s.replace(".stl", "")` specialised to the literal arguments used
at `main.py:194`: a single left-to-right pass removing every
non-overlapping occurrence of `".stl"`. -/
def replaceStl : List Char → List Char
  | '.' :: 's' :: 't' :: 'l' :: rest => replaceStl rest
  | c :: rest => c :: replaceStl rest
  | [] => []

/-- Python `s.replace(".scad", "")` specialised to the literal arguments used
at `main.py:253`. -/
def replaceScad : List Char → List Char
  | '.' :: 's' :: 'c' :: 'a' :: 'd' :: rest => replaceScad rest
  | c :: rest => c :: replaceScad rest
  | [] => []

/-- Python `scad_path.replace(".scad", ".png")` from `main.py:133`. -/
def replaceScadWithPng : List Char → List Char
  | '.' :: 's' :: 'c' :: 'a' :: 'd' :: rest => '.' :: 'p' :: 'n' :: 'g' :: replaceScadWithPng rest
  | c :: rest => c :: replaceScadWithPng rest
  | [] => []

/- ## Base64 (Python `base64.b64encode`, RFC 4648) -/

/-- The standard base64 alphabet. -/
def b64alphabet : List Char :=
  "ABCDEFGHIJKLMNOPQRSTUVWXYZabcdefghijklmnopqrstuvwxyz0123456789+/".data

/-- The base64 character for a 6-bit value. -/
def b64char (n : Nat) : Char := b64alphabet.getD n 'A'

/-- Index of a character in a character list (0 when absent at the end). -/
def idxOfChar : List Char → Char → Nat
  | [], _ => 0
  | a :: rest, c => if a = c then 0 else idxOfChar rest c + 1

/-- Inverse of `b64char` on the alphabet. -/
def b64charVal (c : Char) : Nat := idxOfChar b64alphabet c

/-- `base64.b64encode` over byte values: groups of three bytes become four
alphabet characters; a final group of one or two bytes is padded with
the pad character. -/
def b64encodeL : List Nat → List Char
  | [] => []
  | [a] => [b64char (a / 4), b64char (a % 4 * 16), '=', '=']
  | [a, b] => [b64char (a / 4), b64char (a % 4 * 16 + b / 16), b64char (b % 16 * 4), '=']
  | a :: b :: c :: rest =>
      b64char (a / 4) :: b64char (a % 4 * 16 + b / 16) :: b64char (b % 16 * 4 + c / 64)
        :: b64char (c % 64) :: b64encodeL rest

/-- Base64 decoding, inverse to `b64encodeL`. -/
def b64decodeL : List Char → List Nat
  | c1 :: c2 :: c3 :: c4 :: rest =>
      if c3 = '=' then [b64charVal c1 * 4 + b64charVal c2 / 16]
      else if c4 = '=' then
        [b64charVal c1 * 4 + b64charVal c2 / 16,
         b64charVal c2 % 16 * 16 + b64charVal c3 / 4]
      else (b64charVal c1 * 4 + b64charVal c2 / 16)
            :: (b64charVal c2 % 16 * 16 + b64charVal c3 / 4)
            :: (b64charVal c3 % 4 * 64 + b64charVal c4) :: b64decodeL rest
  | _ => []

/-- String form of the encoder, as returned to the caller. -/
def b64encodeStr (bs : List Nat) : String := ⟨b64encodeL bs⟩

/- ## Lemmas about the string primitives -/

theorem all_dropWhile_iff (p : Char → Bool) :
    ∀ l : List Char, (∀ c ∈ l.dropWhile p, p c = true) ↔ (∀ c ∈ l, p c = true) := by
  intro l
  induction l with
  | nil => simp
  | cons c rest ih =>
    by_cases h : p c = true
    · simp [List.dropWhile, h, ih]
    · simp [List.dropWhile, h]

theorem pyStripL_eq_nil_iff (l : List Char) :
    pyStripL l = [] ↔ ∀ c ∈ l, isPySpace c = true := by
  unfold pyStripL
  rw [List.reverse_eq_nil_iff, List.dropWhile_eq_nil_iff]
  constructor
  · intro h c hc
    have h2 : ∀ c ∈ (l.dropWhile isPySpace).reverse, isPySpace c = true := h
    have h3 : ∀ c ∈ l.dropWhile isPySpace, isPySpace c = true := by
      intro c hc
      exact h2 c (List.mem_reverse.mpr hc)
    exact (all_dropWhile_iff isPySpace l).mp h3 c hc
  · intro h c hc
    exact h c (List.mem_reverse.mp hc |> fun hm => ((l.dropWhile_sublist isPySpace).subset hm))

theorem pyStrip_eq_empty_iff (s : String) :
    pyStrip s = "" ↔ ∀ c ∈ s.data, isPySpace c = true := by
  unfold pyStrip
  constructor
  · intro h
    have : pyStripL s.data = [] := by
      have := congrArg String.data h
      simpa using this
    exact (pyStripL_eq_nil_iff s.data).mp this
  · intro h
    have : pyStripL s.data = [] := (pyStripL_eq_nil_iff s.data).mpr h
    simp [this]

/- ## Base64 round-trip -/

theorem b64charVal_b64char : ∀ n, n < 64 → b64charVal (b64char n) = n := by decide

theorem b64char_ne_pad : ∀ n, n < 64 → b64char n ≠ '=' := by decide

theorem b64_roundtrip : ∀ bs : List Nat, (∀ x ∈ bs, x < 256) → b64decodeL (b64encodeL bs) = bs := by
  intro bs
  induction bs using b64encodeL.induct with
  | case1 => intro _; rfl
  | case2 a =>
    intro h
    have ha : a < 256 := h a (by simp)
    simp only [b64encodeL, b64decodeL]
    rw [if_pos trivial, b64charVal_b64char _ (by omega), b64charVal_b64char _ (by omega)]
    congr 1
    omega
  | case3 a b =>
    intro h
    have ha : a < 256 := h a (by simp)
    have hb : b < 256 := h b (by simp)
    simp only [b64encodeL, b64decodeL]
    rw [if_neg (b64char_ne_pad _ (by omega)), if_pos trivial,
      b64charVal_b64char _ (by omega), b64charVal_b64char _ (by omega),
      b64charVal_b64char _ (by omega)]
    congr 1
    · omega
    · congr 1
      omega
  | case4 a b c rest ih =>
    intro h
    have ha : a < 256 := h a (by simp)
    have hb : b < 256 := h b (by simp)
    have hc : c < 256 := h c (by simp)
    have hrest : ∀ x ∈ rest, x < 256 := fun x hx => h x (by simp [hx])
    simp only [b64encodeL, b64decodeL]
    rw [if_neg (b64char_ne_pad _ (by omega)), if_neg (b64char_ne_pad _ (by omega)),
      b64charVal_b64char _ (by omega), b64charVal_b64char _ (by omega),
      b64charVal_b64char _ (by omega), b64charVal_b64char _ (by omega), ih hrest]
    congr 1
    · omega
    · congr 1
      · omega
      · congr 1
        omega

/- ## Filename normalization (main.py:194 and main.py:253) -/

/-- `filename.replace(".stl", "") + ".stl"` from `export_model_to_stl`. -/
def stl_normalize (filename : String) : String :=
  String.mk (replaceStl filename.data) ++ ".stl"

/-- `filename.replace(".scad", "") + ".scad"` from `save_openscad_script`. -/
def scad_normalize (filename : String) : String :=
  String.mk (replaceScad filename.data) ++ ".scad"

/-- Modelled from the words of the spec for comparison with `stl_normalize`:
"strip a trailing canonical mesh extension if already present, then append
exactly one canonical extension". -/
def specTrailingNormalizeStl (f : String) : String :=
  (if (".stl".data.reverse).isPrefixOf f.data.reverse
   then String.mk (f.data.reverse.drop 4).reverse else f) ++ ".stl"

theorem replaceStl_of_no_occurrence :
    ∀ l : List Char, ¬ (('.' :: 's' :: 't' :: 'l' :: []) <:+: l) → replaceStl l = l := by
  intro l
  induction l using replaceStl.induct with
  | case1 rest ih =>
    intro h
    exact absurd ⟨[], rest, rfl⟩ h
  | case2 c rest hne ih =>
    intro h
    have : ¬ (('.' :: 's' :: 't' :: 'l' :: []) <:+: rest) := by
      intro ⟨s, t, hst⟩
      exact h ⟨c :: s, t, by simp [← hst]⟩
    rw [replaceStl]
    · rw [ih this]
    · exact hne
  | case3 =>
    intro _
    rfl

/- ## Camera presets (main.py:38) -/

/-- The `CAMERA_VIEWS` dictionary, in insertion order. -/
def CAMERA_VIEWS : List (String × String) :=
  [("isometric", "--camera=10,10,10,60,0,45,25"),
   ("front", "--camera=0,0,10,0,0,0,25"),
   ("back", "--camera=0,0,-10,0,0,180,25"),
   ("left", "--camera=-10,0,0,0,0,90,25"),
   ("right", "--camera=10,0,0,0,0,270,25"),
   ("top", "--camera=0,0,10,0,0,0,25"),
   ("bottom", "--camera=0,0,-10,0,0,0,25")]

/-- The dictionary keys, in insertion order (Python dicts preserve it). -/
def cameraKeys : List String := CAMERA_VIEWS.map (fun p => p.1)

/-- Dictionary lookup `CAMERA_VIEWS[view]` (`none` models `view not in CAMERA_VIEWS`). -/
def cameraLookup (view : String) : Option String :=
  (CAMERA_VIEWS.find? (fun p => p.1 == view)).map (fun p => p.2)

theorem cameraLookup_eq_none_of_not_mem {view : String} (h : view ∉ cameraKeys) :
    cameraLookup view = none := by
  unfold cameraLookup
  cases hf : CAMERA_VIEWS.find? (fun p => p.1 == view) with
  | none => rfl
  | some p =>
    have hm : p ∈ CAMERA_VIEWS := List.mem_of_find?_eq_some hf
    have hp : (p.1 == view) = true := (List.find?_eq_some.mp hf).1
    have : view ∈ cameraKeys := by
      unfold cameraKeys
      exact List.mem_map.mpr ⟨p, hm, eq_of_beq hp⟩
    exact absurd this h

theorem cameraLookup_isSome_of_mem {view : String} (h : view ∈ cameraKeys) :
    ∃ cam, cameraLookup view = some cam := by
  unfold cameraKeys at h
  obtain ⟨p, hp, heq⟩ := List.mem_map.mp h
  have : ∃ x ∈ CAMERA_VIEWS, (x.1 == view) = true := ⟨p, hp, by simp [heq]⟩
  obtain ⟨q, hq⟩ := Option.isSome_iff_exists.mp (List.find?_isSome.mpr this)
  exact ⟨q.2, by simp [cameraLookup, hq]⟩

/- ## Scratchpad state (main.py:48) -/

/-- `OpenSCADState`: the in-memory script plus the durable record
(`scratchpad_state.json`), modelled as the script text it stores when it
exists. -/
structure OpenSCADState where
  script_content : String
  stateFile : Option String
deriving DecidableEq

/-- `OpenSCADState.save_state`: attempt the durable write; a failing write
(`persistOk = false`) is swallowed (`except ... logger.error`) and leaves
both the in-memory value and the old record untouched. -/
def save_state (persistOk : Bool) (st : OpenSCADState) : OpenSCADState :=
  if persistOk then { st with stateFile := some st.script_content } else st

/- ## Tool functions -/

/-- An apostrophe character, for building the invalid-view message. -/
def apos : String := String.mk [Char.ofNat 39]

/-- `show_openscad_script` (main.py:86). -/
def show_openscad_script (st : OpenSCADState) : String :=
  if pyStrip st.script_content = "" then "No script content in scratchpad"
  else "Current OpenSCAD script:\n\n" ++ st.script_content

/-- The success message of `create_openscad_script` (main.py:109). -/
def updateSuccessMsg (script_content : String) : String :=
  "OpenSCAD script updated successfully (" ++ toString (pySplitLen script_content '\n')
    ++ " lines, " ++ toString script_content.length ++ " characters)"

/-- `create_openscad_script` (main.py:97): set the in-memory script, attempt
persistence, report line/character counts. -/
def create_openscad_script (persistOk : Bool) (st : OpenSCADState) (script_content : String) :
    OpenSCADState × String :=
  let st2 := save_state persistOk { st with script_content := script_content }
  (st2, updateSuccessMsg script_content)

/-- Outcome of one `subprocess.run` call: normal completion with an exit
code and captured stderr, `subprocess.TimeoutExpired`, or any other
exception raised mid-pipeline (e.g. the binary being absent). -/
inductive RunOutcome where
  | completed (returncode : Int) (stderr : String)
  | timedOut
  | raised (msg : String)
deriving DecidableEq

/-- Environment of one `view_render` invocation: the temp path handed out
by `tempfile.NamedTemporaryFile`, the subprocess outcome, and the bytes of
the PNG the compiler wrote (`none` when no output file appeared). -/
structure RenderEnv where
  scadPath : String
  outcome : RunOutcome
  pngBytes : Option (List Nat)
deriving DecidableEq

/-- Result of one `view_render` invocation: the returned text, the spawned
commands paired with their timeout in seconds, and the files existing when
the call returns. -/
structure RenderOut where
  message : String
  spawned : List (List String × Nat)
  fsAfter : List String
deriving DecidableEq

/-- `os.unlink(p)` guarded by `Path(p).exists()` (main.py:170). -/
def unlinkIfExists (fs : List String) (p : String) : List String :=
  if p ∈ fs then fs.filter (fun q => !(q == p)) else fs

/-- `scad_path.replace(".scad", ".png")` (main.py:133). -/
def pngPathOf (scadPath : String) : String :=
  String.mk (replaceScadWithPng scadPath.data)

/-- The invalid-view error message (main.py:126). -/
def invalidViewMsg (view : String) : String :=
  "Invalid view " ++ apos ++ view ++ apos ++ ". Available views: "
    ++ String.intercalate ", " cameraKeys

/-- The text returned by the inner pipeline of `view_render`
(main.py:147-180), by subprocess outcome. -/
def renderMessage (env : RenderEnv) : String :=
  match env.outcome with
  | RunOutcome.completed rc stderr =>
      if rc ≠ 0 then "OpenSCAD error: " ++ stderr
      else
        match env.pngBytes with
        | none => "Render failed: No output file generated"
        | some bytes => "data:image/png;base64," ++ b64encodeStr bytes
  | RunOutcome.timedOut => "Render timeout - script may be too complex"
  | RunOutcome.raised m => "Render error: " ++ m

/-- The command line built at main.py:137. -/
def renderCmd (camArg : String) (env : RenderEnv) : List String :=
  ["openscad", camArg, "--imgsize=1024,1024", "--render", "-o",
    pngPathOf env.scadPath, env.scadPath]

/-- The file system after one acquired `view_render` pipeline: the temp
`.scad` is created, the compiler may create the `.png`, and the `finally`
block (main.py:166-173) unlinks both. -/
def renderCleanup (env : RenderEnv) (fs0 : List String) : List String :=
  let fs1 := env.scadPath :: fs0
  let fs2 := match env.pngBytes with
    | some _ => pngPathOf env.scadPath :: fs1
    | none => fs1
  unlinkIfExists (unlinkIfExists fs2 env.scadPath) (pngPathOf env.scadPath)

/-- `view_render` (main.py:114), with the file system threaded explicitly:
`fs0` is the set of existing paths at entry.  Past the two validation
guards, exactly one subprocess invocation happens (timeout 30), and the
cleanup runs on every branch of the inner pipeline, exceptions included. -/
def view_render (st : OpenSCADState) (view : String) (env : RenderEnv)
    (fs0 : List String) : RenderOut :=
  if pyStrip st.script_content = "" then ⟨"No script content to render", [], fs0⟩
  else
    match cameraLookup view with
    | none => ⟨invalidViewMsg view, [], fs0⟩
    | some camArg => ⟨renderMessage env, [(renderCmd camArg env, 30)], renderCleanup env fs0⟩

/-- Environment of one `export_model_to_stl` invocation: temp path,
subprocess outcome, and the size of the STL the compiler wrote (`none`
when no STL appeared). -/
structure ExportEnv where
  scadPath : String
  outcome : RunOutcome
  stlSize : Option Nat
deriving DecidableEq

/-- Result of one `export_model_to_stl` invocation. -/
structure ExportOut where
  message : String
  spawned : List (List String × Nat)
  fsAfter : List String
deriving DecidableEq

/-- The text returned by the inner pipeline of `export_model_to_stl`
(main.py:212-239), by subprocess outcome. -/
def exportMessage (stlPath : String) (env : ExportEnv) : String :=
  match env.outcome with
  | RunOutcome.completed rc stderr =>
      if rc ≠ 0 then "OpenSCAD export error: " ++ stderr
      else
        match env.stlSize with
        | none => "Export failed: No STL file generated"
        | some size =>
            "STL exported successfully to " ++ stlPath ++ " (" ++ toString size ++ " bytes)"
  | RunOutcome.timedOut => "Export timeout - script may be too complex"
  | RunOutcome.raised m => "Export error: " ++ m

/-- The file system after one acquired export pipeline: the temp `.scad`
is created, the compiler may create the STL, and the `finally` block
(main.py:226-232) unlinks only the temp input. -/
def exportCleanup (stlPath : String) (env : ExportEnv) (fs0 : List String) : List String :=
  let fs1 := env.scadPath :: fs0
  let fs2 := match env.stlSize with
    | some _ => stlPath :: fs1
    | none => fs1
  unlinkIfExists fs2 env.scadPath

/-- `export_model_to_stl` (main.py:182).  `workDir` is the `WORK_DIR`
directory (environment-dependent).  Past the validation guard, exactly one
subprocess invocation happens (timeout 60); only the temp `.scad` input is
cleaned up and the destination STL persists. -/
def export_model_to_stl (workDir : String) (st : OpenSCADState) (filename : String)
    (env : ExportEnv) (fs0 : List String) : ExportOut :=
  if pyStrip st.script_content = "" then ⟨"No script content to export", [], fs0⟩
  else
    let stlPath := workDir ++ "/" ++ stl_normalize filename
    ⟨exportMessage stlPath env,
      [(["openscad", "--render", "-o", stlPath, env.scadPath], 60)],
      exportCleanup stlPath env fs0⟩

/-- Result of one `save_openscad_script` invocation: the returned text, the
files existing at return, and the written file (path and content), if any. -/
structure SaveOut where
  message : String
  fsAfter : List String
  written : Option (String × String)
deriving DecidableEq

/-- `save_openscad_script` (main.py:241). -/
def save_openscad_script (workDir : String) (st : OpenSCADState) (filename : String)
    (fs0 : List String) : SaveOut :=
  if pyStrip st.script_content = "" then ⟨"No script content to save", fs0, none⟩
  else
    let fname := scad_normalize filename
    let path := workDir ++ "/" ++ fname
    ⟨"Script saved to " ++ path ++ " (" ++ toString (pySplitLen st.script_content '\n')
        ++ " lines)",
      path :: fs0, some (path, st.script_content)⟩

/- ## Helper lemmas about cleanup and state -/

theorem not_mem_unlinkIfExists_self (fs : List String) (p : String) :
    p ∉ unlinkIfExists fs p := by
  unfold unlinkIfExists
  by_cases h : p ∈ fs
  · rw [if_pos h]
    intro hmem
    have h2 := List.mem_filter.mp hmem
    simp at h2
  · rw [if_neg h]
    exact h

theorem mem_of_mem_unlinkIfExists {q p : String} {fs : List String}
    (h : q ∈ unlinkIfExists fs p) : q ∈ fs := by
  unfold unlinkIfExists at h
  by_cases hc : p ∈ fs
  · rw [if_pos hc] at h
    exact (List.mem_filter.mp h).1
  · rwa [if_neg hc] at h

theorem string_append_assoc (a b c : String) : a ++ b ++ c = a ++ (b ++ c) := by
  cases a with | mk x =>
  cases b with | mk y =>
  cases c with | mk z =>
  exact congrArg String.mk (List.append_assoc x y z)

theorem create_script_content (p : Bool) (st : OpenSCADState) (S : String) :
    (create_openscad_script p st S).1.script_content = S := by
  cases p <;> rfl

/- ## Claims -/

/-- C1: every `view_render` invocation releases both temporary resources —
the input script file and the derived output image path — before it
returns, on every branch (validation error, nonzero exit, timeout,
success) and also when an exception is raised mid-pipeline after
acquisition. -/
theorem view_render_releases_temp_resources (st : OpenSCADState) (view : String)
    (env : RenderEnv) (fs0 : List String)
    (hscad : env.scadPath ∉ fs0) (hpng : pngPathOf env.scadPath ∉ fs0) :
    env.scadPath ∉ (view_render st view env fs0).fsAfter ∧
      pngPathOf env.scadPath ∉ (view_render st view env fs0).fsAfter := by
  unfold view_render
  by_cases h1 : pyStrip st.script_content = ""
  · rw [if_pos h1]
    exact ⟨hscad, hpng⟩
  · rw [if_neg h1]
    cases hl : cameraLookup view with
    | none => exact ⟨hscad, hpng⟩
    | some cam =>
      constructor
      · show env.scadPath ∉ renderCleanup env fs0
        unfold renderCleanup
        intro hmem
        exact not_mem_unlinkIfExists_self _ _ (mem_of_mem_unlinkIfExists hmem)
      · show pngPathOf env.scadPath ∉ renderCleanup env fs0
        unfold renderCleanup
        exact not_mem_unlinkIfExists_self _ _

/-- Witness for C1 at a concrete successful invocation. -/
theorem view_render_releases_temp_resources_witness :
    "/tmp/x.scad" ∉ (view_render ⟨"cube(10);", none⟩ "top"
        ⟨"/tmp/x.scad", RunOutcome.completed 0 "", some [137, 80, 78, 71]⟩ []).fsAfter ∧
      pngPathOf "/tmp/x.scad" ∉ (view_render ⟨"cube(10);", none⟩ "top"
        ⟨"/tmp/x.scad", RunOutcome.completed 0 "", some [137, 80, 78, 71]⟩ []).fsAfter :=
  view_render_releases_temp_resources ⟨"cube(10);", none⟩ "top"
    ⟨"/tmp/x.scad", RunOutcome.completed 0 "", some [137, 80, 78, 71]⟩ []
    (by decide) (by decide)

/-- C2 counterexample: for the whitespace-only script text S = a newline,
createScript(S) followed by showScript returns the no-content message,
which does not contain S. -/
theorem create_then_show_counterexample :
    show_openscad_script (create_openscad_script true ⟨"", none⟩ "\n").1
        = "No script content in scratchpad" ∧
      ¬ ("\n".data <:+: (show_openscad_script (create_openscad_script true ⟨"", none⟩ "\n").1).data) := by
  constructor
  · rfl
  · decide

/-- C2 (amended): for every script text S containing at least one
non-whitespace character, createScript(S) followed by showScript with no
intervening update returns text containing exactly S. -/
theorem create_then_show_contains (persistOk : Bool) (st : OpenSCADState) (S : String)
    (h : ∃ c ∈ S.data, isPySpace c = false) :
    S.data <:+: (show_openscad_script (create_openscad_script persistOk st S).1).data := by
  have hne : pyStrip S ≠ "" := by
    intro he
    obtain ⟨c, hc, hf⟩ := h
    have := (pyStrip_eq_empty_iff S).mp he c hc
    rw [this] at hf
    simp at hf
  unfold show_openscad_script
  rw [create_script_content, if_neg hne]
  exact ⟨"Current OpenSCAD script:\n\n".data, [], by simp⟩

/-- Witness for the amended C2. -/
theorem create_then_show_contains_witness :
    "cube(10);".data <:+:
      (show_openscad_script (create_openscad_script true ⟨"", none⟩ "cube(10);").1).data :=
  create_then_show_contains true ⟨"", none⟩ "cube(10);" (by decide)

/-- C3 counterexample: the normalization in the code removes a NON-trailing
occurrence of ".stl" as well, so it differs from the trailing-only rule
the spec describes, at the input "my.stlfile". -/
theorem stl_normalize_counterexample :
    stl_normalize "my.stlfile" = "myfile.stl" ∧
      specTrailingNormalizeStl "my.stlfile" = "my.stlfile.stl" ∧
      stl_normalize "my.stlfile" ≠ specTrailingNormalizeStl "my.stlfile" := by
  refine ⟨by decide, by decide, by decide⟩

/-- C3 (amended): the normalization removes every non-overlapping
occurrence of the canonical extension anywhere in the name (not only a
trailing one) and then appends exactly one canonical extension; in
particular exportMesh("part") and exportMesh("part.stl") resolve to the
identical destination filename part.stl, likewise saveScript with ".scad",
and a name free of the extension gets exactly one appended. -/
theorem stl_normalize_strips_all_occurrences :
    stl_normalize "part" = "part.stl" ∧ stl_normalize "part.stl" = "part.stl" ∧
      scad_normalize "part" = "part.scad" ∧ scad_normalize "part.scad" = "part.scad" ∧
      ∀ f : String, ¬ (".stl".data <:+: f.data) → stl_normalize f = f ++ ".stl" := by
  refine ⟨by decide, by decide, by decide, by decide, ?_⟩
  intro f h
  unfold stl_normalize
  rw [replaceStl_of_no_occurrence f.data h]

/-- Witness for the amended C3. -/
theorem stl_normalize_strips_all_occurrences_witness :
    stl_normalize "hello" = "hello" ++ ".stl" :=
  stl_normalize_strips_all_occurrences.2.2.2.2 "hello" (by decide)

/-- C4 counterexample: with an empty scratchpad, render of the
unrecognized view "diagonal" returns the no-content message, not an error
enumerating the 7 valid view names. -/
theorem invalid_view_counterexample :
    (view_render ⟨"", none⟩ "diagonal" ⟨"/tmp/x.scad", RunOutcome.timedOut, none⟩ []).message
        = "No script content to render" ∧
      (view_render ⟨"", none⟩ "diagonal" ⟨"/tmp/x.scad", RunOutcome.timedOut, none⟩ []).message
        ≠ invalidViewMsg "diagonal" ∧
      ¬ ("isometric".data <:+:
        (view_render ⟨"", none⟩ "diagonal" ⟨"/tmp/x.scad", RunOutcome.timedOut, none⟩ []).message.data) := by
  refine ⟨by decide, by decide, by decide⟩

/-- C4 (amended): whenever the stored script has non-whitespace content,
every unrecognized view name makes render return the error enumerating
exactly the 7 valid names, spawn no process and leave the file system
untouched. -/
theorem invalid_view_enumerates (st : OpenSCADState) (view : String) (env : RenderEnv)
    (fs0 : List String) (hc : pyStrip st.script_content ≠ "") (hv : view ∉ cameraKeys) :
    view_render st view env fs0 =
      ⟨"Invalid view " ++ apos ++ view ++ apos
          ++ ". Available views: isometric, front, back, left, right, top, bottom",
        [], fs0⟩ := by
  unfold view_render
  rw [if_neg hc, cameraLookup_eq_none_of_not_mem hv]
  show (⟨invalidViewMsg view, [], fs0⟩ : RenderOut) = _
  unfold invalidViewMsg
  rw [string_append_assoc]
  congr 1

/-- Witness for the amended C4. -/
theorem invalid_view_enumerates_witness :
    view_render ⟨"cube(10);", none⟩ "diagonal" ⟨"/tmp/x.scad", RunOutcome.timedOut, none⟩ [] =
      ⟨"Invalid view " ++ apos ++ "diagonal" ++ apos
          ++ ". Available views: isometric, front, back, left, right, top, bottom",
        [], []⟩ :=
  invalid_view_enumerates ⟨"cube(10);", none⟩ "diagonal"
    ⟨"/tmp/x.scad", RunOutcome.timedOut, none⟩ [] (by decide) (by decide)

/-- C5: when the stored script is empty or all-whitespace, render,
exportMesh and saveScript each return their defined "no content" result,
spawn no external process and write no file. -/
theorem empty_script_guards (st : OpenSCADState) (view filename workDir : String)
    (renv : RenderEnv) (eenv : ExportEnv) (fs0 fs1 fs2 : List String)
    (h : ∀ c ∈ st.script_content.data, isPySpace c = true) :
    view_render st view renv fs0 = ⟨"No script content to render", [], fs0⟩ ∧
      export_model_to_stl workDir st filename eenv fs1
        = ⟨"No script content to export", [], fs1⟩ ∧
      save_openscad_script workDir st filename fs2
        = ⟨"No script content to save", fs2, none⟩ := by
  have he : pyStrip st.script_content = "" := (pyStrip_eq_empty_iff _).mpr h
  refine ⟨?_, ?_, ?_⟩ <;>
    simp [view_render, export_model_to_stl, save_openscad_script, he]

/-- Witness for C5 on a whitespace-only scratchpad. -/
theorem empty_script_guards_witness :
    view_render ⟨"  \n", none⟩ "top" ⟨"/tmp/x.scad", RunOutcome.timedOut, none⟩ [] =
      ⟨"No script content to render", [], []⟩ :=
  (empty_script_guards ⟨"  \n", none⟩ "top" "part" "/work"
    ⟨"/tmp/x.scad", RunOutcome.timedOut, none⟩ ⟨"/tmp/y.scad", RunOutcome.timedOut, none⟩
    [] [] [] (by decide)).1

/-- C6: render invokes the compiler under a 30-second bound and exportMesh
under a 60-second bound, and exceeding the bound yields distinct
timeout-specific messages. -/
theorem timeout_bounds_and_messages (st : OpenSCADState) (view filename workDir : String)
    (renv : RenderEnv) (eenv : ExportEnv) (fs0 fs1 : List String)
    (hc : pyStrip st.script_content ≠ "") (hv : view ∈ cameraKeys)
    (hr : renv.outcome = RunOutcome.timedOut) (he : eenv.outcome = RunOutcome.timedOut) :
    (∀ e : RenderEnv, ∀ x ∈ (view_render st view e fs0).spawned, x.2 = 30) ∧
      (∀ e : ExportEnv, ∀ x ∈ (export_model_to_stl workDir st filename e fs1).spawned, x.2 = 60) ∧
      (view_render st view renv fs0).message = "Render timeout - script may be too complex" ∧
      (export_model_to_stl workDir st filename eenv fs1).message
        = "Export timeout - script may be too complex" ∧
      ("Render timeout - script may be too complex" : String)
        ≠ "Export timeout - script may be too complex" := by
  obtain ⟨cam, hcam⟩ := cameraLookup_isSome_of_mem hv
  refine ⟨?_, ?_, ?_, ?_, by decide⟩
  · intro e x hx
    simp [view_render, if_neg hc, hcam] at hx
    rw [hx]
  · intro e x hx
    simp [export_model_to_stl, if_neg hc] at hx
    rw [hx]
  · simp [view_render, renderMessage, if_neg hc, hcam, hr]
  · simp [export_model_to_stl, exportMessage, if_neg hc, he]

/-- Witness for C6 at a concrete timed-out render. -/
theorem timeout_bounds_and_messages_witness :
    (view_render ⟨"cube(10);", none⟩ "top"
        ⟨"/tmp/x.scad", RunOutcome.timedOut, none⟩ []).message
      = "Render timeout - script may be too complex" :=
  (timeout_bounds_and_messages ⟨"cube(10);", none⟩ "top" "part" "/work"
    ⟨"/tmp/x.scad", RunOutcome.timedOut, none⟩ ⟨"/tmp/y.scad", RunOutcome.timedOut, none⟩
    [] [] (by decide) (by decide) rfl rfl).2.2.1

/-- C7: on zero exit, render checks the output file: if it is absent it
returns the defensive "no output produced" failure, otherwise the payload
is the bytes of the file base64-encoded behind the media-type marker and
decodes to exactly those bytes. -/
theorem render_success_payload (st : OpenSCADState) (view : String) (env : RenderEnv)
    (fs0 : List String) (stderr : String)
    (hc : pyStrip st.script_content ≠ "") (hv : view ∈ cameraKeys)
    (ho : env.outcome = RunOutcome.completed 0 stderr) :
    (env.pngBytes = none →
      (view_render st view env fs0).message = "Render failed: No output file generated") ∧
      ∀ bytes, env.pngBytes = some bytes →
        (view_render st view env fs0).message = "data:image/png;base64," ++ b64encodeStr bytes ∧
          ((∀ x ∈ bytes, x < 256) → b64decodeL (b64encodeStr bytes).data = bytes) := by
  obtain ⟨cam, hcam⟩ := cameraLookup_isSome_of_mem hv
  constructor
  · intro hb
    simp [view_render, renderMessage, if_neg hc, hcam, ho, hb]
  · intro bytes hb
    refine ⟨?_, fun hlt => b64_roundtrip bytes hlt⟩
    simp [view_render, renderMessage, if_neg hc, hcam, ho, hb]

/-- Witness for C7 at a concrete two-byte output. -/
theorem render_success_payload_witness :
    (view_render ⟨"cube(10);", none⟩ "top"
        ⟨"/tmp/x.scad", RunOutcome.completed 0 "", some [137, 80]⟩ []).message
      = "data:image/png;base64," ++ b64encodeStr [137, 80] :=
  ((render_success_payload ⟨"cube(10);", none⟩ "top"
      ⟨"/tmp/x.scad", RunOutcome.completed 0 "", some [137, 80]⟩ [] ""
      (by decide) (by decide) rfl).2 [137, 80] rfl).1

/-- C8: a failing durable write inside createScript is not surfaced: the
returned status and the new in-memory script are identical to the
successful-persistence case, and a subsequent showScript returns the newly
set text. -/
theorem create_persistence_failure_invisible (st : OpenSCADState) (S : String) :
    (create_openscad_script false st S).2 = updateSuccessMsg S ∧
      (create_openscad_script false st S).2 = (create_openscad_script true st S).2 ∧
      (create_openscad_script false st S).1.script_content = S ∧
      show_openscad_script (create_openscad_script false st S).1
        = show_openscad_script (create_openscad_script true st S).1 ∧
      (pyStrip S ≠ "" →
        show_openscad_script (create_openscad_script false st S).1
          = "Current OpenSCAD script:\n\n" ++ S) := by
  refine ⟨rfl, rfl, create_script_content false st S, ?_, ?_⟩
  · unfold show_openscad_script
    rw [create_script_content, create_script_content]
  · intro h
    unfold show_openscad_script
    rw [create_script_content, if_neg h]

/-- Witness for C8. -/
theorem create_persistence_failure_invisible_witness :
    show_openscad_script (create_openscad_script false ⟨"", none⟩ "cube(10);").1
      = "Current OpenSCAD script:\n\n" ++ "cube(10);" :=
  (create_persistence_failure_invisible ⟨"", none⟩ "cube(10);").2.2.2.2 (by decide)

/-- C9: the preset table maps "front" and "top" to the identical camera
argument string, so render("front") and render("top") build exactly the
same command list and are indistinguishable in behaviour. -/
theorem front_top_identical :
    cameraLookup "front" = cameraLookup "top" ∧
      cameraLookup "front" = some "--camera=0,0,10,0,0,0,25" ∧
      ∀ (st : OpenSCADState) (env : RenderEnv) (fs0 : List String),
        view_render st "front" env fs0 = view_render st "top" env fs0 := by
  refine ⟨by decide, by decide, ?_⟩
  intro st env fs0
  unfold view_render
  have h1 : cameraLookup "front" = some "--camera=0,0,10,0,0,0,25" := by decide
  have h2 : cameraLookup "top" = some "--camera=0,0,10,0,0,0,25" := by decide
  rw [h1, h2]

/-- C10: for every nonempty all-whitespace script text S, createScript(S)
stores S and reports success, yet showScript answers with the no-content
message, and render, exportMesh and saveScript all behave as if the
scratchpad were empty. -/
theorem whitespace_script_paradox (st : OpenSCADState) (persistOk : Bool) (S : String)
    (view filename workDir : String) (renv : RenderEnv) (eenv : ExportEnv)
    (fs0 fs1 fs2 : List String)
    (_hne : S ≠ "") (hws : ∀ c ∈ S.data, isPySpace c = true) :
    (create_openscad_script persistOk st S).1.script_content = S ∧
      (create_openscad_script persistOk st S).2 = updateSuccessMsg S ∧
      show_openscad_script (create_openscad_script persistOk st S).1
        = "No script content in scratchpad" ∧
      view_render (create_openscad_script persistOk st S).1 view renv fs0
        = ⟨"No script content to render", [], fs0⟩ ∧
      export_model_to_stl workDir (create_openscad_script persistOk st S).1 filename eenv fs1
        = ⟨"No script content to export", [], fs1⟩ ∧
      save_openscad_script workDir (create_openscad_script persistOk st S).1 filename fs2
        = ⟨"No script content to save", fs2, none⟩ := by
  have he : pyStrip (create_openscad_script persistOk st S).1.script_content = "" := by
    rw [create_script_content]
    exact (pyStrip_eq_empty_iff S).mpr hws
  refine ⟨create_script_content persistOk st S, rfl, ?_, ?_, ?_, ?_⟩ <;>
    simp [show_openscad_script, view_render, export_model_to_stl, save_openscad_script, he]

/-- Witness for C10 on the two-space-and-newline script. -/
theorem whitespace_script_paradox_witness :
    show_openscad_script (create_openscad_script true ⟨"", none⟩ " \n ").1
      = "No script content in scratchpad" :=
  (whitespace_script_paradox ⟨"", none⟩ true " \n " "top" "part" "/work"
    ⟨"/tmp/x.scad", RunOutcome.timedOut, none⟩ ⟨"/tmp/y.scad", RunOutcome.timedOut, none⟩
    [] [] [] (by decide) (by decide)).2.2.1
